import Mathlib

/-!
Verification of the unit-based page-size value model of
`domdf_python_tools.pagesizes.classes` (file `src/domdf_python_tools/pagesizes/classes.py`).

Numeric values are embedded as rationals (the Python code computes with
exact `Decimal`/`float` arithmetic over fixed rational conversion ratios,
and every claim's tolerance clause is satisfied by exact equality over ℚ).

The module `pagesizes/units.py` (the `Unit` subtypes with their fixed
ratios to the point) and `pagesizes/utils.py` (`convert_from`) are not part
of the provided sources; the definitions `Unit.ratio`, `Unit.as_pt`,
`Unit.from_pt` and `convert_from` below are modelled from the spec.
Everything else is translated directly from `classes.py`.
-/

namespace Pagesizes

/-- The recognized length units.  Modelled from the spec: `units.py` is not in
the provided sources; §4.1 lists the unit subtypes millimeter, inch,
centimeter, micrometer, pica, didot, cicero, new-didot, new-cicero and
scaled-point, plus the canonical unit point. -/
inductive UnitTag where
  | pt
  | mm
  | inch
  | cm
  | um
  | pica
  | didot
  | cicero
  | new_didot
  | new_cicero
  | scaled_point
  deriving DecidableEq, Repr

/-- Modelled from the spec: the fixed ratio of each unit to the base unit
(point), `units.py` being absent from the sources.  §4.1 requires the
historical/typographic definitions (1 inch = 72 pt, 1 cm = 72/2.54 pt,
1 pica = 12 pt, TeX didot 1157 dd = 1238 pt, cicero = 12 didot,
new didot = 0.375 mm, new cicero = 12 new didot, scaled point = 1/65536 pt). -/
def Unit.ratio : UnitTag → ℚ
  | .pt => 1
  | .mm => 360 / 127
  | .inch => 72
  | .cm => 3600 / 127
  | .um => 9 / 3175
  | .pica => 12
  | .didot => 1238 / 1157
  | .cicero => 14856 / 1157
  | .new_didot => 135 / 127
  | .new_cicero => 1620 / 127
  | .scaled_point => 1 / 65536

/-- Modelled from the spec (§4.1 `as_base_unit()`): the value multiplied by the
subtype's fixed ratio, yielding a value in points. -/
def Unit.as_pt (u : UnitTag) (x : ℚ) : ℚ := x * Unit.ratio u

/-- Modelled from the spec (§4.1 `from_base_unit(value)`): the base-unit value
divided by the subtype's ratio. -/
def Unit.from_pt (u : UnitTag) (x : ℚ) : ℚ := x / Unit.ratio u

/-- The concrete Python classes of the size family in `classes.py`:
`BaseSize` itself and its subclasses.  Each class carries a fixed
class-level `_unit`. -/
inductive SizeClass where
  | base
  | size_mm
  | size_inch
  | size_cm
  | size_um
  | size_pica
  | size_didot
  | size_cicero
  | size_new_didot
  | size_new_cicero
  | size_scaled_point
  | pageSize
  deriving DecidableEq, Repr

/-- The class-level `_unit` attribute of each size class (`classes.py`:
`BaseSize._unit = pt`, `Size_mm._unit = mm`, ..., `PageSize` inherits `pt`). -/
def SizeClass.unit : SizeClass → UnitTag
  | .base => .pt
  | .size_mm => .mm
  | .size_inch => .inch
  | .size_cm => .cm
  | .size_um => .um
  | .size_pica => .pica
  | .size_didot => .didot
  | .size_cicero => .cicero
  | .size_new_didot => .new_didot
  | .size_new_cicero => .new_cicero
  | .size_scaled_point => .scaled_point
  | .pageSize => .pt

/-- A `BaseSize` instance: a namedtuple `(width, height)` whose dynamic class
is one of the size classes.  `width`/`height` hold the numeric magnitudes of
the wrapped `Unit` values (a `Unit` stores its number verbatim). -/
structure BaseSize where
  cls : SizeClass
  width : ℚ
  height : ℚ
  deriving DecidableEq, Repr

/-- `BaseSize.__new__`: wraps both inputs with the class's `_unit`; a `Unit`
stores the number verbatim, so the magnitudes are stored as given. -/
def BaseSize.new (c : SizeClass) (w h : ℚ) : BaseSize := ⟨c, w, h⟩

/-- Python `==` on sizes: namedtuple equality is raw tuple comparison of
`(width, height)`, with no unit or class check. -/
def BaseSize.pyEq (s t : BaseSize) : Bool := s.width == t.width && s.height == t.height

/-- `BaseSize.is_landscape`: `self.width >= self.height`. -/
def BaseSize.is_landscape (s : BaseSize) : Bool := decide (s.width ≥ s.height)

/-- `BaseSize.is_portrait`: `self.width < self.height`. -/
def BaseSize.is_portrait (s : BaseSize) : Bool := decide (s.width < s.height)

/-- `BaseSize.is_square`: `self.width == self.height`. -/
def BaseSize.is_square (s : BaseSize) : Bool := decide (s.width = s.height)

/-- `BaseSize.landscape`: if `self.is_portrait()` then
`self.__class__(self.height, self.width)` else `self`. -/
def BaseSize.landscape (s : BaseSize) : BaseSize :=
  if s.is_portrait then BaseSize.new s.cls s.height s.width else s

/-- `BaseSize.portrait`: if `self.is_landscape()` then
`self.__class__(self.height, self.width)` else `self`. -/
def BaseSize.portrait (s : BaseSize) : BaseSize :=
  if s.is_landscape then BaseSize.new s.cls s.height s.width else s

/-- `BaseSize.to_pt`: `PageSize(self.width.as_pt(), self.height.as_pt())`
(the `PageSize` constructor with the default unit `pt` stores the converted
values as given). -/
def BaseSize.to_pt (s : BaseSize) : BaseSize :=
  BaseSize.new .pageSize (Unit.as_pt s.cls.unit s.width) (Unit.as_pt s.cls.unit s.height)

/-- A Python value passed to the classmethod `BaseSize.from_pt`: either a
plain `(float, float)` tuple (as the declared signature suggests) or an
instance of one of the size classes. -/
inductive FromPtArg where
  | tuple (w h : ℚ)
  | size (s : BaseSize)
  deriving DecidableEq, Repr

/-- `BaseSize.from_pt`: `assert isinstance(size, PageSize)` then
`cls(cls._unit.from_pt(size[0]), cls._unit.from_pt(size[1]))`.  The
`AssertionError` raised when the argument is not a `PageSize` instance is
embedded as `Except.error`. -/
def BaseSize.from_pt (c : SizeClass) (arg : FromPtArg) : Except String BaseSize :=
  match arg with
  | .size s =>
      if s.cls = .pageSize then
        .ok (BaseSize.new c (Unit.from_pt c.unit s.width) (Unit.from_pt c.unit s.height))
      else
        .error "AssertionError"
  | .tuple _ _ => .error "AssertionError"

/-- Modelled from the spec (§4.2): `utils.convert_from` is not in the provided
sources; the two numeric inputs are converted into the canonical unit
(multiplied by the source unit's ratio to the point). -/
def convert_from (w h : ℚ) (u : UnitTag) : ℚ × ℚ := (Unit.as_pt u w, Unit.as_pt u h)

/-- `PageSize.__new__(cls, width, height, unit=pt)`: converts both inputs from
`unit` into points via `convert_from`, then stores them. -/
def PageSize.new (w h : ℚ) (u : UnitTag) : BaseSize :=
  BaseSize.new .pageSize (convert_from w h u).1 (convert_from w h u).2

/-- `PageSize.inch` property: `Size_inch.from_pt(self)`. -/
def PageSize.inch (s : BaseSize) : Except String BaseSize :=
  BaseSize.from_pt .size_inch (.size s)

/-- Every unit's ratio to the point is nonzero. -/
theorem Unit.ratio_ne_zero (u : UnitTag) : Unit.ratio u ≠ 0 := by
  cases u <;> norm_num [Unit.ratio]

/-- C1: for every unit subtype `U` and numeric inputs `w, h`, converting
`U(w, h)` to points with `to_pt()` and back with `U.from_pt` yields exactly
`U(w, h)` (exact over ℚ, hence within any floating tolerance); and for every
pair of subtypes, `from_pt` into `U2` followed by `to_pt()` reproduces the
original point-denominated size. -/
theorem claim_C1_round_trip (c c2 : SizeClass) (w h : ℚ) :
    BaseSize.from_pt c (.size ((BaseSize.new c w h).to_pt)) =
      .ok (BaseSize.new c w h) ∧
    Except.map BaseSize.to_pt (BaseSize.from_pt c2 (.size ((BaseSize.new c w h).to_pt))) =
      .ok ((BaseSize.new c w h).to_pt) := by
  have h1 := Unit.ratio_ne_zero c.unit
  have h2 := Unit.ratio_ne_zero c2.unit
  constructor
  · simp only [BaseSize.from_pt, BaseSize.to_pt, BaseSize.new, Unit.as_pt, Unit.from_pt,
      if_pos rfl, if_true]
    rw [mul_div_cancel_right₀ _ h1, mul_div_cancel_right₀ _ h1]
  · simp only [BaseSize.from_pt, BaseSize.to_pt, BaseSize.new, Unit.as_pt, Unit.from_pt,
      if_pos rfl, if_true, Except.map]
    rw [div_mul_cancel₀ _ h2, div_mul_cancel₀ _ h2]

/-- C2: Python equality on sizes is raw `(width, height)` tuple comparison
with no unit normalization or unit check: for all `w, h` and distinct unit
subtypes, `U1(w, h) == U2(w, h)`. -/
theorem claim_C2_raw_equality (c1 c2 : SizeClass) (w h : ℚ) (_hne : c1 ≠ c2) :
    BaseSize.pyEq (BaseSize.new c1 w h) (BaseSize.new c2 w h) = true := by
  simp [BaseSize.pyEq, BaseSize.new]

/-- Witness for C2 at `Size_mm(3, 4)` and `Size_inch(3, 4)`. -/
theorem claim_C2_witness :
    BaseSize.pyEq (BaseSize.new .size_mm 3 4) (BaseSize.new .size_inch 3 4) = true :=
  claim_C2_raw_equality .size_mm .size_inch 3 4 (by decide)

/-- C3: `is_landscape` holds iff width ≥ height, `is_portrait` holds iff
width < height, exactly one of the two holds for every size, and a square
size is landscape and not portrait (ties favor landscape). -/
theorem claim_C3_orientation_trichotomy (s : BaseSize) :
    (s.is_landscape = true ↔ s.width ≥ s.height) ∧
    (s.is_portrait = true ↔ s.width < s.height) ∧
    s.is_portrait = !s.is_landscape ∧
    (s.is_square = true → s.is_landscape = true ∧ s.is_portrait = false) := by
  refine ⟨by simp [BaseSize.is_landscape], by simp [BaseSize.is_portrait], ?_, ?_⟩
  · simp only [BaseSize.is_portrait, BaseSize.is_landscape, ge_iff_le, ← not_le, decide_not]
  · intro hsq
    rw [BaseSize.is_square, decide_eq_true_iff] at hsq
    simp [BaseSize.is_landscape, BaseSize.is_portrait, hsq]

/-- Witness for C3 at the square size `BaseSize(5, 5)`. -/
theorem claim_C3_witness :
    (BaseSize.new .base 5 5).is_landscape = true ∧
      (BaseSize.new .base 5 5).is_portrait = false :=
  (claim_C3_orientation_trichotomy (BaseSize.new .base 5 5)).2.2.2 (by decide)

/-- C4: `landscape()` returns the size unchanged when it is landscape or
square, and otherwise the same-class size with width and height swapped;
concretely `Size(100, 50).landscape() == Size(100, 50)` and
`Size(50, 100).landscape() == Size(100, 50)`. -/
theorem claim_C4_landscape (s : BaseSize) :
    (s.is_landscape = true ∨ s.is_square = true → s.landscape = s) ∧
    (¬(s.is_landscape = true ∨ s.is_square = true) →
      s.landscape = BaseSize.new s.cls s.height s.width) ∧
    (PageSize.new 100 50 .pt).landscape = PageSize.new 100 50 .pt ∧
    (PageSize.new 50 100 .pt).landscape = PageSize.new 100 50 .pt := by
  refine ⟨?_, ?_,
    by norm_num [PageSize.new, convert_from, Unit.as_pt, Unit.ratio, BaseSize.landscape,
      BaseSize.is_portrait, BaseSize.new],
    by norm_num [PageSize.new, convert_from, Unit.as_pt, Unit.ratio, BaseSize.landscape,
      BaseSize.is_portrait, BaseSize.new]⟩
  · intro hc
    have hwh : s.height ≤ s.width := by
      rcases hc with hl | hs
      · exact decide_eq_true_iff.mp hl
      · exact le_of_eq (decide_eq_true_iff.mp hs).symm
    simp [BaseSize.landscape, BaseSize.is_portrait, not_lt.mpr hwh]
  · intro hc
    rw [not_or] at hc
    have hlt : s.width < s.height :=
      lt_of_not_ge fun hge => hc.1 (decide_eq_true_iff.mpr hge)
    simp [BaseSize.landscape, BaseSize.is_portrait, hlt]

/-- Witness for C4 at `BaseSize(4, 3)` (landscape, unchanged) and
`BaseSize(3, 4)` (portrait, swapped). -/
theorem claim_C4_witness :
    (BaseSize.new .base 4 3).landscape = BaseSize.new .base 4 3 ∧
    (BaseSize.new .base 3 4).landscape = BaseSize.new .base 4 3 :=
  ⟨(claim_C4_landscape (BaseSize.new .base 4 3)).1 (Or.inl (by decide)),
   (claim_C4_landscape (BaseSize.new .base 3 4)).2.1 (by decide)⟩

/-- C5: `portrait()` returns a size equal to the original when it is portrait
or square, and otherwise the same-class size with width and height swapped. -/
theorem claim_C5_portrait (s : BaseSize) :
    (s.is_portrait = true ∨ s.is_square = true → s.portrait = s) ∧
    (¬(s.is_portrait = true ∨ s.is_square = true) →
      s.portrait = BaseSize.new s.cls s.height s.width) := by
  constructor
  · intro hc
    rcases hc with hp | hs
    · have hlt : s.width < s.height := decide_eq_true_iff.mp hp
      simp [BaseSize.portrait, BaseSize.is_landscape, not_le.mpr hlt]
    · have heq : s.width = s.height := decide_eq_true_iff.mp hs
      cases s with
      | mk c w h =>
          simp only at heq
          simp [BaseSize.portrait, BaseSize.new, heq]
  · intro hc
    rw [not_or] at hc
    have hlt : s.height < s.width := by
      rcases lt_trichotomy s.width s.height with h | h | h
      · exact absurd (decide_eq_true_iff.mpr h) hc.1
      · exact absurd (decide_eq_true_iff.mpr h) hc.2
      · exact h
    simp [BaseSize.portrait, BaseSize.is_landscape, le_of_lt hlt]

/-- Witness for C5 at `BaseSize(3, 4)` (portrait, unchanged) and
`BaseSize(4, 3)` (landscape, swapped). -/
theorem claim_C5_witness :
    (BaseSize.new .base 3 4).portrait = BaseSize.new .base 3 4 ∧
    (BaseSize.new .base 4 3).portrait = BaseSize.new .base 3 4 :=
  ⟨(claim_C5_portrait (BaseSize.new .base 3 4)).1 (Or.inl (by decide)),
   (claim_C5_portrait (BaseSize.new .base 4 3)).2 (by decide)⟩

/-- C6: the orientation normalizers are idempotent:
`landscape(landscape(s)) == landscape(s)` and
`portrait(portrait(s)) == portrait(s)` for every size `s`. -/
theorem claim_C6_idempotent (s : BaseSize) :
    s.landscape.landscape = s.landscape ∧ s.portrait.portrait = s.portrait := by
  cases s with
  | mk c w h =>
      rcases lt_trichotomy w h with hlt | heq | hgt
      · constructor
        · simp [BaseSize.landscape, BaseSize.is_portrait, BaseSize.new, hlt,
            not_lt.mpr (le_of_lt hlt)]
        · simp [BaseSize.portrait, BaseSize.is_landscape, BaseSize.new, hlt,
            not_le.mpr hlt]
      · subst heq
        constructor
        · simp [BaseSize.landscape, BaseSize.is_portrait, BaseSize.new]
        · simp [BaseSize.portrait, BaseSize.is_landscape, BaseSize.new]
      · constructor
        · simp [BaseSize.landscape, BaseSize.is_portrait, BaseSize.new,
            not_lt.mpr (le_of_lt hgt)]
        · simp [BaseSize.portrait, BaseSize.is_landscape, BaseSize.new,
            le_of_lt hgt, not_le.mpr hgt]

/-- C7: `PageSize(width, height, unit)` converts both inputs into points
before storing them; with the default unit (point, ratio 1) the inputs are
stored as given; subtype constructors store their inputs verbatim and always
interpret them in their own fixed unit (visible through `to_pt`). -/
theorem claim_C7_construction (w h : ℚ) (u : UnitTag) (c : SizeClass) :
    PageSize.new w h u = BaseSize.new .pageSize (Unit.as_pt u w) (Unit.as_pt u h) ∧
    PageSize.new w h .pt = BaseSize.new .pageSize w h ∧
    (BaseSize.new c w h).width = w ∧ (BaseSize.new c w h).height = h ∧
    (BaseSize.new c w h).to_pt =
      BaseSize.new .pageSize (Unit.as_pt c.unit w) (Unit.as_pt c.unit h) := by
  refine ⟨rfl, ?_, rfl, rfl, rfl⟩
  simp [PageSize.new, convert_from, Unit.as_pt, Unit.ratio, BaseSize.new]

/-- C8: the ratio table defines 1 inch = 72 points, and `PageSize(72, 144)`
viewed through the `.inch` property is `Size_inch(1.0, 2.0)`. -/
theorem claim_C8_inch_seventy_two :
    Unit.ratio .inch = 72 ∧
    PageSize.inch (PageSize.new 72 144 .pt) = .ok (BaseSize.new .size_inch 1 2) := by
  refine ⟨rfl, ?_⟩
  norm_num [PageSize.inch, PageSize.new, convert_from, Unit.as_pt, Unit.from_pt,
    Unit.ratio, BaseSize.from_pt, BaseSize.new, SizeClass.unit]

/-- C9: `from_pt` asserts its argument is a `PageSize` instance despite the
declared `Tuple[float, float]` signature: for every size class `U`, a plain
`(float, float)` tuple argument, or a size instance whose class is not
`PageSize`, raises `AssertionError` instead of converting. -/
theorem claim_C9_from_pt_assert (c : SizeClass) (w h : ℚ) (s : BaseSize)
    (hs : s.cls ≠ .pageSize) :
    BaseSize.from_pt c (.tuple w h) = .error "AssertionError" ∧
    BaseSize.from_pt c (.size s) = .error "AssertionError" :=
  ⟨rfl, by simp [BaseSize.from_pt, hs]⟩

/-- Witness for C9 at `Size_mm.from_pt` applied to the tuple `(3, 4)` and to
the non-`PageSize` instance `Size_cm(3, 4)`. -/
theorem claim_C9_witness :
    BaseSize.from_pt .size_mm (.tuple 3 4) = .error "AssertionError" ∧
    BaseSize.from_pt .size_mm (.size (BaseSize.new .size_cm 3 4)) = .error "AssertionError" :=
  claim_C9_from_pt_assert .size_mm 3 4 (BaseSize.new .size_cm 3 4) (by decide)

/-- C10: `s.landscape().is_landscape()` always holds;
`s.portrait().is_portrait()` holds iff `s` is not square; for a square `s`,
`portrait(s)` is not portrait and is landscape. -/
theorem claim_C10_normalizer_postcondition (s : BaseSize) :
    s.landscape.is_landscape = true ∧
    (s.portrait.is_portrait = true ↔ ¬s.is_square = true) ∧
    (s.is_square = true →
      s.portrait.is_portrait = false ∧ s.portrait.is_landscape = true) := by
  cases s with
  | mk c w h =>
      rcases lt_trichotomy w h with hlt | heq | hgt
      · refine ⟨?_, ?_, ?_⟩
        · simp [BaseSize.landscape, BaseSize.is_portrait, BaseSize.is_landscape,
            BaseSize.new, hlt, le_of_lt hlt]
        · simp [BaseSize.portrait, BaseSize.is_landscape, BaseSize.is_portrait,
            BaseSize.is_square, BaseSize.new, hlt, not_le.mpr hlt, ne_of_lt hlt]
        · intro hsq
          rw [BaseSize.is_square, decide_eq_true_iff] at hsq
          exact absurd hsq (ne_of_lt hlt)
      · subst heq
        refine ⟨?_, ?_, fun _ => ?_⟩
        · simp [BaseSize.landscape, BaseSize.is_portrait, BaseSize.is_landscape,
            BaseSize.new]
        · simp [BaseSize.portrait, BaseSize.is_landscape, BaseSize.is_portrait,
            BaseSize.is_square, BaseSize.new]
        · constructor <;>
            simp [BaseSize.portrait, BaseSize.is_landscape, BaseSize.is_portrait,
              BaseSize.new]
      · refine ⟨?_, ?_, ?_⟩
        · simp [BaseSize.landscape, BaseSize.is_portrait, BaseSize.is_landscape,
            BaseSize.new, not_lt.mpr (le_of_lt hgt), le_of_lt hgt]
        · simp [BaseSize.portrait, BaseSize.is_landscape, BaseSize.is_portrait,
            BaseSize.is_square, BaseSize.new, hgt, le_of_lt hgt,
            (ne_of_lt hgt).symm]
        · intro hsq
          rw [BaseSize.is_square, decide_eq_true_iff] at hsq
          exact absurd hsq.symm (ne_of_lt hgt)

/-- Witness for C10 at the square size `BaseSize(2, 2)`. -/
theorem claim_C10_witness :
    (BaseSize.new .base 2 2).portrait.is_portrait = false ∧
    (BaseSize.new .base 2 2).portrait.is_landscape = true :=
  (claim_C10_normalizer_postcondition (BaseSize.new .base 2 2)).2.2 (by decide)

end Pagesizes
